import Mathlib

/- Verification development for the battery energy storage system (BESS)
   optimization repository.  The per-day linear program built by
   src/model/optimization_model.py, the call protocol of src/model/runner.py
   and src/main.py, the cycle accounting of src/model/output_handler.py and
   src/test_functions.py, and the missing-hour filling of
   src/data_preprocess/data_handler.py are embedded shallowly: docplex
   decision variables become an inductive family of variable identifiers,
   a docplex model becomes the list of constraints added to it (each with a
   structural tag mirroring the constraint name used in the source, and a
   decidable satisfaction check), and prices become rational-valued
   functions of (month, hour, day) keys.  Python floats are embedded as
   rationals. -/

namespace BESS

/-- Decision-variable identifiers declared by
`OptimizationModel.create_variables` (src/model/optimization_model.py,
lines 52..70): one continuous docplex variable per hour for discharge
quantity, charge quantity, regulation up, regulation down and state of
charge, created with `continuous_var_dict` over the hour set
`range(1, 25)`. -/
inductive Var
  | quantity_discharge (hour : ℕ)
  | quantity_charge (hour : ℕ)
  | quantity_regulation_up (hour : ℕ)
  | quantity_regulation_down (hour : ℕ)
  | state_of_charge (hour : ℕ)
deriving DecidableEq

/-- An assignment of a rational value to every decision variable (a candidate
solution of the day model). -/
def Assignment : Type := Var → ℚ

/-- Hour set of a day model: `self.hour_set = range(1, 25)` in
`create_variables`, i.e. the hours 1..24. -/
def hour_set : List ℕ := List.range' 1 24

/-- Model parameters fixed in `OptimizationModel.__init__`
(src/model/optimization_model.py, lines 8..33): nameplate energy capacity
`max_charge`, nameplate power limits `q_max_d` and `q_max_r`, efficiency
`lambda_c` and regulation rate `lambda_reg`. -/
structure ModelParams where
  max_charge : ℚ
  q_max_d : ℚ
  q_max_r : ℚ
  lambda_c : ℚ
  lambda_reg : ℚ

/-- Default parameter values of `OptimizationModel.__init__`, the ones used
by `main.py` (which constructs `OptimizationModel(data_handler)` with all
defaults): max_charge = 200.0, q_max_d = 100.0, q_max_r = 100.0,
lambda_c = 0.9, lambda_reg = 0.1. -/
def default_params : ModelParams := ⟨200, 100, 100, 9/10, 1/10⟩

/-- Structural tags for the constraints added by
`OptimizationModel.add_constraints`, mirroring the f-string constraint
names of the source.  The month/day indices embedded in the source's name
strings are identifiers only (and are even scrambled by the tuple
rebinding of `self.month`/`self.day` in the missing-data comprehensions);
they do not affect constraint content and are omitted from the tag. -/
inductive CKind
  | state_of_charge (hour : ℕ)
  | initial_state_of_charge
  | initial_state_of_charge_day_1
  | state_of_charge_upper_bound (hour : ℕ)
  | state_of_charge_lower_bound (hour : ℕ)
  | recharge_upper_bound (hour : ℕ)
  | recharge_lower_bound (hour : ℕ)
  | discharge_upper_bound (hour : ℕ)
  | discharge_lower_bound (hour : ℕ)
  | missing_energy (hour : ℕ)
  | missing_regulation_up (hour : ℕ)
  | missing_regulation_down (hour : ℕ)
  | charge_cycle_constraint
  | discharge_cycle_constraint
deriving DecidableEq

/-- One docplex constraint: its structural tag and its (decidable)
satisfaction check on an assignment. -/
structure Constraint where
  kind : CKind
  check : Assignment → Bool

/-- State-of-charge recursion constraint added for every hour > 1
(src/model/optimization_model.py, lines 137..156):
soc[hour] == soc[hour-1] + lambda_c*charge[hour] - lambda_c*discharge[hour]
+ lambda_c*lambda_reg*reg_up[hour] + lambda_c*lambda_reg*reg_down[hour].
Note both regulation terms carry a plus sign in the source. -/
def state_of_charge_constraint (p : ModelParams) (hour : ℕ) : Constraint :=
  ⟨CKind.state_of_charge hour, fun a =>
    decide (a (Var.state_of_charge hour) =
      a (Var.state_of_charge (hour - 1))
      + p.lambda_c * a (Var.quantity_charge hour)
      - p.lambda_c * a (Var.quantity_discharge hour)
      + p.lambda_c * p.lambda_reg * a (Var.quantity_regulation_up hour)
      + p.lambda_c * p.lambda_reg * a (Var.quantity_regulation_down hour))⟩

/-- Boundary constraint added when `self.day > 1`
(src/model/optimization_model.py, lines 159..169): the source pins
soc[1] to the `initial_charge` argument of `add_constraints` — the same
expression as in the day-1 branch. -/
def initial_state_of_charge_constraint (initial_charge : ℚ) : Constraint :=
  ⟨CKind.initial_state_of_charge, fun a =>
    decide (a (Var.state_of_charge 1) = initial_charge)⟩

/-- Boundary constraint added when `self.day == 1`
(src/model/optimization_model.py, lines 171..177): soc[1] == initial_charge. -/
def initial_state_of_charge_day_1_constraint (initial_charge : ℚ) : Constraint :=
  ⟨CKind.initial_state_of_charge_day_1, fun a =>
    decide (a (Var.state_of_charge 1) = initial_charge)⟩

/-- State-of-charge upper bound (lines 179..185): soc[hour] <= max_charge. -/
def state_of_charge_upper_bound_constraint (p : ModelParams) (hour : ℕ) : Constraint :=
  ⟨CKind.state_of_charge_upper_bound hour, fun a =>
    decide (a (Var.state_of_charge hour) ≤ p.max_charge)⟩

/-- State-of-charge lower bound (lines 187..192): soc[hour] >= 0. -/
def state_of_charge_lower_bound_constraint (hour : ℕ) : Constraint :=
  ⟨CKind.state_of_charge_lower_bound hour, fun a =>
    decide (0 ≤ a (Var.state_of_charge hour))⟩

/-- Recharge upper bound (lines 194..201):
charge[hour] + reg_down[hour] <= q_max_r. -/
def recharge_upper_bound_constraint (p : ModelParams) (hour : ℕ) : Constraint :=
  ⟨CKind.recharge_upper_bound hour, fun a =>
    decide (a (Var.quantity_charge hour) + a (Var.quantity_regulation_down hour)
      ≤ p.q_max_r)⟩

/-- Recharge lower bound (lines 203..209):
charge[hour] + reg_down[hour] >= 0. -/
def recharge_lower_bound_constraint (hour : ℕ) : Constraint :=
  ⟨CKind.recharge_lower_bound hour, fun a =>
    decide (0 ≤ a (Var.quantity_charge hour) + a (Var.quantity_regulation_down hour))⟩

/-- Discharge upper bound (lines 211..218):
discharge[hour] + reg_up[hour] <= q_max_d. -/
def discharge_upper_bound_constraint (p : ModelParams) (hour : ℕ) : Constraint :=
  ⟨CKind.discharge_upper_bound hour, fun a =>
    decide (a (Var.quantity_discharge hour) + a (Var.quantity_regulation_up hour)
      ≤ p.q_max_d)⟩

/-- Discharge lower bound (lines 220..226):
discharge[hour] + reg_up[hour] >= 0. -/
def discharge_lower_bound_constraint (hour : ℕ) : Constraint :=
  ⟨CKind.discharge_lower_bound hour, fun a =>
    decide (0 ≤ a (Var.quantity_discharge hour) + a (Var.quantity_regulation_up hour))⟩

/-- Missing-energy zeroing constraint (lines 228..234), one per triple of
`missing_energy`: discharge[hour] + charge[hour] == 0. -/
def missing_energy_constraint (hour : ℕ) : Constraint :=
  ⟨CKind.missing_energy hour, fun a =>
    decide (a (Var.quantity_discharge hour) + a (Var.quantity_charge hour) = 0)⟩

/-- Missing-regulation-up zeroing constraint (lines 235..240), one per
triple of `missing_regulation_up`: reg_up[hour] == 0. -/
def missing_regulation_up_constraint (hour : ℕ) : Constraint :=
  ⟨CKind.missing_regulation_up hour, fun a =>
    decide (a (Var.quantity_regulation_up hour) = 0)⟩

/-- Missing-regulation-down zeroing constraint (lines 241..247), one per
triple of `missing_regulation_down`: reg_down[hour] == 0. -/
def missing_regulation_down_constraint (hour : ℕ) : Constraint :=
  ⟨CKind.missing_regulation_down hour, fun a =>
    decide (a (Var.quantity_regulation_down hour) = 0)⟩

/-- Daily charge-side cycle cap (lines 318..328):
sum over hours 1..24 of charge plus sum of reg_down <= q_max_r. -/
def charge_cycle_constraint (p : ModelParams) : Constraint :=
  ⟨CKind.charge_cycle_constraint, fun a =>
    decide ((hour_set.map fun hour => a (Var.quantity_charge hour)).sum
      + (hour_set.map fun hour => a (Var.quantity_regulation_down hour)).sum
      ≤ p.q_max_r)⟩

/-- Daily discharge-side cycle cap (lines 330..340):
sum over hours 1..24 of discharge plus sum of reg_up <= q_max_d. -/
def discharge_cycle_constraint (p : ModelParams) : Constraint :=
  ⟨CKind.discharge_cycle_constraint, fun a =>
    decide ((hour_set.map fun hour => a (Var.quantity_discharge hour)).sum
      + (hour_set.map fun hour => a (Var.quantity_regulation_up hour)).sum
      ≤ p.q_max_d)⟩

/-- Embedding of `OptimizationModel.add_constraints`
(src/model/optimization_model.py, lines 119..340) as the list of
constraints added to the docplex model, in source order.  The source's
`interval` parameter is unused in the body and omitted here; `self.day`
is the `day` parameter; `self.month` enters only the name strings.  The
comprehension over hours adds the recursion constraint only for hour > 1
(the `else None` entries add nothing to the model), which is the
`filterMap` below; the two boundary branches fire for day > 1 and
day == 1 respectively, and both pin soc[1] to `initial_charge`. -/
def add_constraints (p : ModelParams) (day : ℕ) (initial_charge : ℚ)
    (missing_energy missing_regulation_up missing_regulation_down :
      List (ℕ × ℕ × ℕ)) : List Constraint :=
  (hour_set.filterMap fun hour =>
    if hour > 1 then some (state_of_charge_constraint p hour) else none)
  ++ (if day > 1 then [initial_state_of_charge_constraint initial_charge] else [])
  ++ (if day = 1 then [initial_state_of_charge_day_1_constraint initial_charge] else [])
  ++ (hour_set.map fun hour => state_of_charge_upper_bound_constraint p hour)
  ++ (hour_set.map fun hour => state_of_charge_lower_bound_constraint hour)
  ++ (hour_set.map fun hour => recharge_upper_bound_constraint p hour)
  ++ (hour_set.map fun hour => recharge_lower_bound_constraint hour)
  ++ (hour_set.map fun hour => discharge_upper_bound_constraint p hour)
  ++ (hour_set.map fun hour => discharge_lower_bound_constraint hour)
  ++ (missing_energy.map fun t => missing_energy_constraint t.2.1)
  ++ (missing_regulation_up.map fun t => missing_regulation_up_constraint t.2.1)
  ++ (missing_regulation_down.map fun t => missing_regulation_down_constraint t.2.1)
  ++ [charge_cycle_constraint p]
  ++ [discharge_cycle_constraint p]

/-- Variable lower bounds: every docplex variable of `create_variables` is
a default `continuous_var`, hence lower-bounded by 0. -/
def vars_nonneg (a : Assignment) : Bool :=
  hour_set.all fun hour =>
    decide (0 ≤ a (Var.quantity_discharge hour)) &&
    decide (0 ≤ a (Var.quantity_charge hour)) &&
    decide (0 ≤ a (Var.quantity_regulation_up hour)) &&
    decide (0 ≤ a (Var.quantity_regulation_down hour)) &&
    decide (0 ≤ a (Var.state_of_charge hour))

/-- Decidable feasibility of an assignment for the built day model: all
variable lower bounds and every added constraint hold. -/
def feasible_bool (cs : List Constraint) (a : Assignment) : Bool :=
  vars_nonneg a && cs.all fun c => c.check a

/-- Feasibility as a proposition. -/
def Feasible (cs : List Constraint) (a : Assignment) : Prop :=
  feasible_bool cs a = true

/-- Objective sense of a docplex model. -/
inductive ObjSense
  | maximize
  | minimize

/-- Sense set by `OptimizationModel.set_objective_function`: the source
calls `self.model.maximize(...)` (src/model/optimization_model.py,
line 100). -/
def objective_sense : ObjSense := ObjSense.maximize

/-- Value of the objective expression built by
`OptimizationModel.set_objective_function`
(src/model/optimization_model.py, lines 84..117) at an assignment:
sum of discharge[hour]*energy_price[month,hour,day]
- sum of charge[hour]*energy_price[month,hour,day]
+ sum of reg_up[hour]*reg_up_price[month,hour,day]
+ sum of reg_down[hour]*reg_down_price[month,hour,day].
Note the regulation-down sum is added in the source. -/
def set_objective_function (month day : ℕ)
    (energy_price_params regulation_up_params regulation_down_params :
      ℕ × ℕ × ℕ → ℚ) (a : Assignment) : ℚ :=
  (hour_set.map fun hour =>
    a (Var.quantity_discharge hour) * energy_price_params (month, hour, day)).sum
  - (hour_set.map fun hour =>
    a (Var.quantity_charge hour) * energy_price_params (month, hour, day)).sum
  + (hour_set.map fun hour =>
    a (Var.quantity_regulation_up hour) * regulation_up_params (month, hour, day)).sum
  + (hour_set.map fun hour =>
    a (Var.quantity_regulation_down hour) * regulation_down_params (month, hour, day)).sum

/-- Outcome of the external LP solver invoked through docplex
`Model.solve`, treated as a black box: an optimal solution with its
objective value, infeasibility, or a solver-internal failure. -/
inductive SolverOutcome
  | solution (values : Assignment) (objective_value : ℚ)
  | infeasible
  | solver_failure

/-- Return value of docplex `Model.solve`: a solution object on success and
`None` both on infeasibility and on solver failure (docplex does not raise
in these cases). -/
def docplex_solve : SolverOutcome → Option (Assignment × ℚ)
  | SolverOutcome.solution values objective_value => some (values, objective_value)
  | SolverOutcome.infeasible => none
  | SolverOutcome.solver_failure => none

/-- Python-level errors relevant to this development: the TypeError raised
on an arity mismatch at a call site, and the InfeasibleError/SolverError
named by the specification (no such exception class exists anywhere in the
source tree). -/
inductive PyError
  | typeError
  | infeasibleError
  | solverError
deriving DecidableEq

/-- Embedding of `OptimizationModel.solve` (src/model/optimization_model.py,
lines 342..350).  The body exports the model to a file (I/O, out of scope)
and then returns the 4-tuple
`(self.model, self.model.solve(), self.q_max_d, self.q_max_r)`
unconditionally: there is no exception path, so the embedding always
returns `Except.ok`.  The model handle is embedded as `Unit`. -/
def OptimizationModel.solve (outcome : SolverOutcome) (q_max_d q_max_r : ℚ) :
    Except PyError (Unit × Option (Assignment × ℚ) × ℚ × ℚ) :=
  Except.ok ((), docplex_solve outcome, q_max_d, q_max_r)

/-- Python positional-call semantics, reduced to what decides the claims
here: binding `arg_count` positional arguments against a method with
`param_count` parameters (besides `self`, none of them with defaults and
no varargs) raises TypeError before the body runs unless the counts
match. -/
def pyCall (param_count arg_count : ℕ) (body : α) : Except PyError α :=
  if arg_count = param_count then Except.ok body else Except.error PyError.typeError

/-- Parameters of `OptimizationModel.create_variables` besides `self`
(src/model/optimization_model.py, line 35): interval, desired_month, day. -/
def create_variables_param_count : ℕ := 3

/-- Parameters of `OptimizationModel.set_objective_function` besides `self`
(lines 84..90): interval, energy_price_params, regulation_up_params,
regulation_down_params. -/
def set_objective_function_param_count : ℕ := 4

/-- Parameters of `OptimizationModel.add_constraints` besides `self`
(lines 119..126): interval, initial_charge, missing_energy,
missing_regulation_up, missing_regulation_down. -/
def add_constraints_param_count : ℕ := 5

/-- State of the data handler consumed by `BatteryStorageOptimization.run`
(src/model/runner.py): the three price mappings and the three missing-hour
key lists produced by `DataHandler.data_loader`. -/
structure DataHandlerState where
  energy_price_params : ℕ × ℕ × ℕ → ℚ
  regulation_up_params : ℕ × ℕ × ℕ → ℚ
  regulation_down_params : ℕ × ℕ × ℕ → ℚ
  missing_energy : List (ℕ × ℕ × ℕ)
  missing_regulation_up : List (ℕ × ℕ × ℕ)
  missing_regulation_down : List (ℕ × ℕ × ℕ)

/-- Data assembled by a completed `BatteryStorageOptimization.run` call:
the built constraint list and objective, the solver result and the two
nameplate limits (the source returns these together with the model handle
and the price dictionaries it was given). -/
structure RunResult where
  constraints : List Constraint
  objective : Assignment → ℚ
  solution : Option (Assignment × ℚ)
  q_max_d : ℚ
  q_max_r : ℚ

/-- Embedding of `BatteryStorageOptimization.run` (src/model/runner.py,
lines 20..63).  The source calls, in order: `create_variables` with 3
positional arguments, `set_objective_function` with 4, `add_constraints`
with 6 — `interval, initial_state_of_charge, missing_energy,
missing_regulation_up, missing_regulation_down, previous_day_state`
(lines 41..48) — and then `solve`.  Each call is mediated by `pyCall`
against the callee's parameter count; a TypeError short-circuits the rest
of the method, so the value of `_previous_day_state` can never influence
the result. -/
def BatteryStorageOptimization.run (p : ModelParams) (month day : ℕ)
    (dh : DataHandlerState) (initial_state_of_charge _previous_day_state : ℚ)
    (outcome : SolverOutcome) : Except PyError RunResult := do
  let _ ← pyCall create_variables_param_count 3 ()
  let obj ← pyCall set_objective_function_param_count 4
    (set_objective_function month day dh.energy_price_params
      dh.regulation_up_params dh.regulation_down_params)
  let cs ← pyCall add_constraints_param_count 6
    (add_constraints p day initial_state_of_charge dh.missing_energy
      dh.missing_regulation_up dh.missing_regulation_down)
  let r ← OptimizationModel.solve outcome p.q_max_d p.q_max_r
  Except.ok ⟨cs, obj, r.2.1, r.2.2.1, r.2.2.2⟩

/-- Day total of charged energy: the `charge_values` dict entry of
`OutputHandler.save_total_cycle_per_day` (src/model/output_handler.py,
lines 153..159), the sum of `quantity_charge_i` for i in range(1, 25). -/
def total_charge (sol : Assignment) : ℚ :=
  ((List.range' 1 24).map fun i => sol (Var.quantity_charge i)).sum

/-- Day total of regulation down: the `reg_down_values` dict entry
(lines 160..166). -/
def total_regulation_down (sol : Assignment) : ℚ :=
  ((List.range' 1 24).map fun i => sol (Var.quantity_regulation_down i)).sum

/-- Day total of discharged energy: the `discharge_values` dict entry
(lines 167..173). -/
def total_discharge (sol : Assignment) : ℚ :=
  ((List.range' 1 24).map fun i => sol (Var.quantity_discharge i)).sum

/-- Day total of regulation up: the `reg_up_values` dict entry
(lines 174..180). -/
def total_regulation_up (sol : Assignment) : ℚ :=
  ((List.range' 1 24).map fun i => sol (Var.quantity_regulation_up i)).sum

/-- Embedding of the cycle computation of
`OutputHandler.save_total_cycle_per_day` (src/model/output_handler.py,
lines 145..209): `full_charge` is the comparison
charge_values + reg_down_values == q_max_r, `full_discharge` is
discharge_values + reg_up_values == q_max_d (lines 182..188, both against
the plain nameplate value), and the day's cycle entry starts at 0 and is
incremented once exactly when both hold (lines 190..193).  The CSV output
is out of scope; the returned number is the day's Total_Cycle value. -/
def save_total_cycle_per_day (sol : Assignment) (q_max_d q_max_r : ℚ) : ℕ :=
  let full_charge := decide (total_charge sol + total_regulation_down sol = q_max_r)
  let full_discharge := decide (total_discharge sol + total_regulation_up sol = q_max_d)
  if full_charge && full_discharge then 0 + 1 else 0

/-- Embedding of `TestFunctions.number_of_cycles_check`
(src/test_functions.py, lines 133..167) applied to a single day's
schedule: total charge-side and discharge-side sums are compared against
twice the nameplate values (`== 2*max_r`, `== 2*max_d`, lines 159 and
162), and the cycle counter is incremented once when both comparisons
hold. -/
def number_of_cycles_check (df : Assignment) (max_d max_r : ℚ) : ℕ :=
  let total_charge_day := total_charge df + total_regulation_down df
  let total_discharge_day := total_discharge df + total_regulation_up df
  let full_charge : ℕ := if total_charge_day = 2 * max_r then 1 else 0
  let full_discharge : ℕ := if total_discharge_day = 2 * max_d then 1 else 0
  if full_charge = 1 ∧ full_discharge = 1 then 0 + 1 else 0

/-- Claimed cycle rule of claim C6, modelled from the claim wording (not
from the source): one full cycle exactly when the day's totals equal twice
the nameplate values. -/
def save_total_cycle_per_day_claimed (sol : Assignment) (q_max_d q_max_r : ℚ) : ℕ :=
  if total_charge sol + total_regulation_down sol = 2 * q_max_r ∧
      total_discharge sol + total_regulation_up sol = 2 * q_max_d then 1 else 0

/-- A Python dict keyed by (month, hour, day) triples with rational price
values: a finite key set together with a total value function read only on
the key set. -/
structure PriceMap where
  keys : Finset (ℕ × ℕ × ℕ)
  val : ℕ × ℕ × ℕ → ℚ

/-- Embedding of `DataHandler.fill_missing_hour`
(src/data_preprocess/data_handler.py, lines 115..140).  The source builds
the set of months occurring as first components and days occurring as
third components of the input keys, forms every (month, hour, day) key
with hour in range(1, 25) that is absent from the input dict, and returns
the pair of (1) the input dict merged with those keys mapped to 0 and
(2) the dict of exactly those missing keys mapped to 0. -/
def fill_missing_hour (data_dict : PriceMap) : PriceMap × PriceMap :=
  let month_components := data_dict.keys.image fun key => key.1
  let day_components := data_dict.keys.image fun key => key.2.2
  let missing_keys :=
    (month_components ×ˢ (Finset.Icc 1 24 ×ˢ day_components)).filter
      fun key => key ∉ data_dict.keys
  (⟨data_dict.keys ∪ missing_keys,
    fun key => if key ∈ data_dict.keys then data_dict.val key else 0⟩,
   ⟨missing_keys, fun _ => 0⟩)

/-- Claimed state-of-charge recursion of claim C3, modelled from the claim
wording (not from the source): the regulation-up term entering with a
negative sign. -/
def state_of_charge_claimed_check (p : ModelParams) (hour : ℕ)
    (a : Assignment) : Bool :=
  decide (a (Var.state_of_charge hour) =
    a (Var.state_of_charge (hour - 1))
    + p.lambda_c * a (Var.quantity_charge hour)
    - p.lambda_c * a (Var.quantity_discharge hour)
    - p.lambda_c * p.lambda_reg * a (Var.quantity_regulation_up hour)
    + p.lambda_c * p.lambda_reg * a (Var.quantity_regulation_down hour))

/-- Claimed objective of claim C4, modelled from the claim wording (not
from the source): the regulation-down revenue sum subtracted. -/
def set_objective_function_claimed (month day : ℕ)
    (energy_price_params regulation_up_params regulation_down_params :
      ℕ × ℕ × ℕ → ℚ) (a : Assignment) : ℚ :=
  (hour_set.map fun hour =>
    a (Var.quantity_discharge hour) * energy_price_params (month, hour, day)).sum
  - (hour_set.map fun hour =>
    a (Var.quantity_charge hour) * energy_price_params (month, hour, day)).sum
  + (hour_set.map fun hour =>
    a (Var.quantity_regulation_up hour) * regulation_up_params (month, hour, day)).sum
  - (hour_set.map fun hour =>
    a (Var.quantity_regulation_down hour) * regulation_down_params (month, hour, day)).sum

/-- Optimality of value `v` for objective `f` over the feasible set of the
constraint list `cs`: `v` is attained and no feasible point exceeds it. -/
def is_optimal_value (cs : List Constraint) (f : Assignment → ℚ) (v : ℚ) : Prop :=
  (∃ a, Feasible cs a ∧ f a = v) ∧ ∀ a, Feasible cs a → f a ≤ v

/-- Assignment with every flow variable 0 and state of charge 100 in every
hour. -/
def flat_assignment : Assignment := fun v =>
  match v with
  | Var.state_of_charge _ => 100
  | _ => 0

/-- Energy price of the C5 scenario: 10.0 at every (month, hour, day). -/
def c5_energy_price : ℕ × ℕ × ℕ → ℚ := fun _ => 10

/-- Regulation price of the C5 scenario: 0 everywhere. -/
def c5_regulation_price : ℕ × ℕ × ℕ → ℚ := fun _ => 0

/-- Constraint list of the C5 scenario day model: month 1, day 1, initial
state of charge 100, no missing hours, default parameters. -/
def c5_constraints : List Constraint :=
  add_constraints default_params 1 100 [] [] []

/-- Objective of the C5 scenario day model. -/
def c5_objective (a : Assignment) : ℚ :=
  set_objective_function 1 1 c5_energy_price c5_regulation_price
    c5_regulation_price a

/-- A maximizer of the C5 scenario: discharge 100 at hour 1, every other
flow 0, state of charge constant at 100. -/
def c5_maximizer : Assignment := fun v =>
  match v with
  | Var.quantity_discharge 1 => 100
  | Var.state_of_charge _ => 100
  | _ => 0

/-- Assignment separating the source recursion from the claimed one:
regulation up 1 at hour 2, state of charge 9/100 at hour 2, all else 0. -/
def c3_assignment : Assignment := fun v =>
  match v with
  | Var.quantity_regulation_up 2 => 1
  | Var.state_of_charge 2 => 9/100
  | _ => 0

/-- Assignment separating the source objective from the claimed one:
regulation down 1 at hour 1, all else 0. -/
def c4_assignment : Assignment := fun v =>
  match v with
  | Var.quantity_regulation_down 1 => 1
  | _ => 0

/-- Zero price map. -/
def c4_zero_price : ℕ × ℕ × ℕ → ℚ := fun _ => 0

/-- Regulation-down price 5 everywhere. -/
def c4_down_price : ℕ × ℕ × ℕ → ℚ := fun _ => 5

/-- Day schedule separating the source cycle rule from the claimed one:
charge 100 and discharge 100 at hour 1, all else 0, so both day totals
equal the nameplate 100 but not 200. -/
def c6_solution : Assignment := fun v =>
  match v with
  | Var.quantity_charge 1 => 100
  | Var.quantity_discharge 1 => 100
  | _ => 0

/-- Concrete one-key price dict for exercising `fill_missing_hour`. -/
def c9_input : PriceMap := ⟨{(1, 1, 1)}, fun _ => 7⟩

/-- Constraint list of the hand-crafted infeasible day of claim C10:
day 1 with initial state of charge 300 above max_charge 200. -/
def c10_constraints : List Constraint :=
  add_constraints default_params 1 300 [] [] []

/-- The hour range of the daily-total sums written out. -/
lemma range_list_eq :
    (List.range' 1 24 : List ℕ) = [1, 2, 3, 4, 5, 6, 7, 8, 9, 10, 11, 12, 13,
      14, 15, 16, 17, 18, 19, 20, 21, 22, 23, 24] := by
  decide

/-- Hour list written out. -/
lemma hour_set_eq :
    hour_set = [1, 2, 3, 4, 5, 6, 7, 8, 9, 10, 11, 12, 13, 14, 15, 16, 17,
      18, 19, 20, 21, 22, 23, 24] := by
  decide

/-- Every check of a feasible assignment holds. -/
lemma check_of_feasible {cs : List Constraint} {a : Assignment}
    (h : Feasible cs a) {c : Constraint} (hc : c ∈ cs) : c.check a = true := by
  simp only [Feasible, feasible_bool, Bool.and_eq_true, List.all_eq_true] at h
  exact h.2 c hc

/-- Variable lower bounds hold for a feasible assignment. -/
lemma nonneg_of_feasible {cs : List Constraint} {a : Assignment}
    (h : Feasible cs a) {hour : ℕ} (hh : hour ∈ hour_set) :
    0 ≤ a (Var.quantity_discharge hour) ∧ 0 ≤ a (Var.quantity_charge hour) ∧
    0 ≤ a (Var.quantity_regulation_up hour) ∧
    0 ≤ a (Var.quantity_regulation_down hour) ∧
    0 ≤ a (Var.state_of_charge hour) := by
  simp only [Feasible, feasible_bool, Bool.and_eq_true, List.all_eq_true] at h
  have h1 := h.1
  simp only [vars_nonneg, List.all_eq_true, Bool.and_eq_true,
    decide_eq_true_eq] at h1
  have h2 := h1 hour hh
  tauto

/-- The state-of-charge recursion constraint of any hour above 1 is in the
built model. -/
lemma state_of_charge_constraint_mem (p : ModelParams) (day : ℕ)
    (initial_charge : ℚ) (me mru mrd : List (ℕ × ℕ × ℕ)) {hour : ℕ}
    (hh : hour ∈ hour_set) (h1 : 1 < hour) :
    state_of_charge_constraint p hour ∈
      add_constraints p day initial_charge me mru mrd := by
  have hmem : state_of_charge_constraint p hour ∈
      hour_set.filterMap fun h2 =>
        if h2 > 1 then some (state_of_charge_constraint p h2) else none :=
    List.mem_filterMap.mpr ⟨hour, hh, by simp [h1]⟩
  simp only [add_constraints, List.mem_append]
  tauto

/-- The day-above-1 boundary constraint is in the built model when
day > 1. -/
lemma initial_state_of_charge_constraint_mem (p : ModelParams) {day : ℕ}
    (initial_charge : ℚ) (me mru mrd : List (ℕ × ℕ × ℕ)) (hd : 1 < day) :
    initial_state_of_charge_constraint initial_charge ∈
      add_constraints p day initial_charge me mru mrd := by
  have hmem : initial_state_of_charge_constraint initial_charge ∈
      (if day > 1 then [initial_state_of_charge_constraint initial_charge]
        else []) := by
    simp [hd]
  simp only [add_constraints, List.mem_append]
  tauto

/-- The day-1 boundary constraint is in the built model when day = 1. -/
lemma initial_state_of_charge_day_1_constraint_mem (p : ModelParams) {day : ℕ}
    (initial_charge : ℚ) (me mru mrd : List (ℕ × ℕ × ℕ)) (hd : day = 1) :
    initial_state_of_charge_day_1_constraint initial_charge ∈
      add_constraints p day initial_charge me mru mrd := by
  have hmem : initial_state_of_charge_day_1_constraint initial_charge ∈
      (if day = 1 then [initial_state_of_charge_day_1_constraint initial_charge]
        else []) := by
    simp [hd]
  simp only [add_constraints, List.mem_append]
  tauto

/-- Every hour's state-of-charge upper bound is in the built model. -/
lemma state_of_charge_upper_bound_constraint_mem (p : ModelParams) (day : ℕ)
    (initial_charge : ℚ) (me mru mrd : List (ℕ × ℕ × ℕ)) {hour : ℕ}
    (hh : hour ∈ hour_set) :
    state_of_charge_upper_bound_constraint p hour ∈
      add_constraints p day initial_charge me mru mrd := by
  have hmem : state_of_charge_upper_bound_constraint p hour ∈
      hour_set.map fun h2 => state_of_charge_upper_bound_constraint p h2 :=
    List.mem_map_of_mem _ hh
  simp only [add_constraints, List.mem_append]
  tauto

/-- The charge-side daily cycle cap is in the built model. -/
lemma charge_cycle_constraint_mem (p : ModelParams) (day : ℕ)
    (initial_charge : ℚ) (me mru mrd : List (ℕ × ℕ × ℕ)) :
    charge_cycle_constraint p ∈
      add_constraints p day initial_charge me mru mrd := by
  have hmem : charge_cycle_constraint p ∈ [charge_cycle_constraint p] :=
    List.mem_singleton_self _
  simp only [add_constraints, List.mem_append]
  tauto

/-- The discharge-side daily cycle cap is in the built model. -/
lemma discharge_cycle_constraint_mem (p : ModelParams) (day : ℕ)
    (initial_charge : ℚ) (me mru mrd : List (ℕ × ℕ × ℕ)) :
    discharge_cycle_constraint p ∈
      add_constraints p day initial_charge me mru mrd := by
  have hmem : discharge_cycle_constraint p ∈ [discharge_cycle_constraint p] :=
    List.mem_singleton_self _
  simp only [add_constraints, List.mem_append]
  tauto

/-- The missing-energy constraint of any listed triple is in the built
model. -/
lemma missing_energy_constraint_mem (p : ModelParams) (day : ℕ)
    (initial_charge : ℚ) (me mru mrd : List (ℕ × ℕ × ℕ)) {t : ℕ × ℕ × ℕ}
    (ht : t ∈ me) :
    missing_energy_constraint t.2.1 ∈
      add_constraints p day initial_charge me mru mrd := by
  have hmem : missing_energy_constraint t.2.1 ∈
      me.map fun t2 => missing_energy_constraint t2.2.1 :=
    List.mem_map_of_mem _ ht
  simp only [add_constraints, List.mem_append]
  tauto

/-- The missing-regulation-up constraint of any listed triple is in the
built model. -/
lemma missing_regulation_up_constraint_mem (p : ModelParams) (day : ℕ)
    (initial_charge : ℚ) (me mru mrd : List (ℕ × ℕ × ℕ)) {t : ℕ × ℕ × ℕ}
    (ht : t ∈ mru) :
    missing_regulation_up_constraint t.2.1 ∈
      add_constraints p day initial_charge me mru mrd := by
  have hmem : missing_regulation_up_constraint t.2.1 ∈
      mru.map fun t2 => missing_regulation_up_constraint t2.2.1 :=
    List.mem_map_of_mem _ ht
  simp only [add_constraints, List.mem_append]
  tauto

/-- The missing-regulation-down constraint of any listed triple is in the
built model. -/
lemma missing_regulation_down_constraint_mem (p : ModelParams) (day : ℕ)
    (initial_charge : ℚ) (me mru mrd : List (ℕ × ℕ × ℕ)) {t : ℕ × ℕ × ℕ}
    (ht : t ∈ mrd) :
    missing_regulation_down_constraint t.2.1 ∈
      add_constraints p day initial_charge me mru mrd := by
  have hmem : missing_regulation_down_constraint t.2.1 ∈
      mrd.map fun t2 => missing_regulation_down_constraint t2.2.1 :=
    List.mem_map_of_mem _ ht
  simp only [add_constraints, List.mem_append]
  tauto

/-- Sum of a difference over a list, componentwise. -/
lemma sum_map_sub (l : List ℕ) (f g : ℕ → ℚ) :
    (l.map fun x => f x - g x).sum = (l.map f).sum - (l.map g).sum := by
  induction l with
  | nil => simp
  | cons x xs ih =>
    simp only [List.map_cons, List.sum_cons, ih]
    ring

/-- A feasible assignment of a day-1 model has soc[1] pinned to the
initial_charge argument. -/
lemma soc_boundary_day1_of_feasible {p : ModelParams} {day : ℕ}
    {init : ℚ} {me mru mrd : List (ℕ × ℕ × ℕ)} {a : Assignment}
    (hd : day = 1) (h : Feasible (add_constraints p day init me mru mrd) a) :
    a (Var.state_of_charge 1) = init := by
  have hc := check_of_feasible h
    (initial_state_of_charge_day_1_constraint_mem p init me mru mrd hd)
  simpa [initial_state_of_charge_day_1_constraint] using hc

/-- A feasible assignment of a day-above-1 model also has soc[1] pinned to
the same initial_charge argument: the source repeats `initial_charge` in
the day > 1 branch. -/
lemma soc_boundary_day_gt_1_of_feasible {p : ModelParams} {day : ℕ}
    {init : ℚ} {me mru mrd : List (ℕ × ℕ × ℕ)} {a : Assignment}
    (hd : 1 < day) (h : Feasible (add_constraints p day init me mru mrd) a) :
    a (Var.state_of_charge 1) = init := by
  have hc := check_of_feasible h
    (initial_state_of_charge_constraint_mem p init me mru mrd hd)
  simpa [initial_state_of_charge_constraint] using hc

/-- A feasible assignment satisfies the source state-of-charge recursion
at every hour above 1, with both regulation terms positive. -/
lemma state_of_charge_recursion_of_feasible {p : ModelParams} {day : ℕ}
    {init : ℚ} {me mru mrd : List (ℕ × ℕ × ℕ)} {a : Assignment} {hour : ℕ}
    (hh : hour ∈ hour_set) (h1 : 1 < hour)
    (h : Feasible (add_constraints p day init me mru mrd) a) :
    a (Var.state_of_charge hour) =
      a (Var.state_of_charge (hour - 1))
      + p.lambda_c * a (Var.quantity_charge hour)
      - p.lambda_c * a (Var.quantity_discharge hour)
      + p.lambda_c * p.lambda_reg * a (Var.quantity_regulation_up hour)
      + p.lambda_c * p.lambda_reg * a (Var.quantity_regulation_down hour) := by
  have hc := check_of_feasible h
    (state_of_charge_constraint_mem p day init me mru mrd hh h1)
  simpa [state_of_charge_constraint] using hc

/-- A feasible assignment respects the hourly state-of-charge upper
bound. -/
lemma soc_upper_of_feasible {p : ModelParams} {day : ℕ}
    {init : ℚ} {me mru mrd : List (ℕ × ℕ × ℕ)} {a : Assignment} {hour : ℕ}
    (hh : hour ∈ hour_set)
    (h : Feasible (add_constraints p day init me mru mrd) a) :
    a (Var.state_of_charge hour) ≤ p.max_charge := by
  have hc := check_of_feasible h
    (state_of_charge_upper_bound_constraint_mem p day init me mru mrd hh)
  simpa [state_of_charge_upper_bound_constraint] using hc

/-- A feasible assignment respects the charge-side daily cycle cap. -/
lemma charge_cap_of_feasible {p : ModelParams} {day : ℕ}
    {init : ℚ} {me mru mrd : List (ℕ × ℕ × ℕ)} {a : Assignment}
    (h : Feasible (add_constraints p day init me mru mrd) a) :
    total_charge a + total_regulation_down a ≤ p.q_max_r := by
  have hc := check_of_feasible h (charge_cycle_constraint_mem p day init me mru mrd)
  simpa [charge_cycle_constraint, total_charge, total_regulation_down,
    hour_set] using hc

/-- A feasible assignment respects the discharge-side daily cycle cap. -/
lemma discharge_cap_of_feasible {p : ModelParams} {day : ℕ}
    {init : ℚ} {me mru mrd : List (ℕ × ℕ × ℕ)} {a : Assignment}
    (h : Feasible (add_constraints p day init me mru mrd) a) :
    total_discharge a + total_regulation_up a ≤ p.q_max_d := by
  have hc := check_of_feasible h
    (discharge_cycle_constraint_mem p day init me mru mrd)
  simpa [discharge_cycle_constraint, total_discharge, total_regulation_up,
    hour_set] using hc

/-- A feasible assignment has zero charge and discharge at every listed
missing-energy hour. -/
lemma missing_energy_zero_of_feasible {p : ModelParams} {day : ℕ}
    {init : ℚ} {me mru mrd : List (ℕ × ℕ × ℕ)} {a : Assignment}
    {t : ℕ × ℕ × ℕ} (ht : t ∈ me) (hh : t.2.1 ∈ hour_set)
    (h : Feasible (add_constraints p day init me mru mrd) a) :
    a (Var.quantity_charge t.2.1) = 0 ∧ a (Var.quantity_discharge t.2.1) = 0 := by
  have hc := check_of_feasible h
    (missing_energy_constraint_mem p day init me mru mrd ht)
  simp only [missing_energy_constraint, decide_eq_true_eq] at hc
  have hn := nonneg_of_feasible h hh
  constructor <;> linarith [hn.1, hn.2.1]

/-- A feasible assignment has zero regulation up at every listed
missing-regulation-up hour. -/
lemma missing_regulation_up_zero_of_feasible {p : ModelParams} {day : ℕ}
    {init : ℚ} {me mru mrd : List (ℕ × ℕ × ℕ)} {a : Assignment}
    {t : ℕ × ℕ × ℕ} (ht : t ∈ mru)
    (h : Feasible (add_constraints p day init me mru mrd) a) :
    a (Var.quantity_regulation_up t.2.1) = 0 := by
  have hc := check_of_feasible h
    (missing_regulation_up_constraint_mem p day init me mru mrd ht)
  simpa [missing_regulation_up_constraint] using hc

/-- A feasible assignment has zero regulation down at every listed
missing-regulation-down hour. -/
lemma missing_regulation_down_zero_of_feasible {p : ModelParams} {day : ℕ}
    {init : ℚ} {me mru mrd : List (ℕ × ℕ × ℕ)} {a : Assignment}
    {t : ℕ × ℕ × ℕ} (ht : t ∈ mrd)
    (h : Feasible (add_constraints p day init me mru mrd) a) :
    a (Var.quantity_regulation_down t.2.1) = 0 := by
  have hc := check_of_feasible h
    (missing_regulation_down_constraint_mem p day init me mru mrd ht)
  simpa [missing_regulation_down_constraint] using hc

/-- Day totals of a feasible assignment are nonnegative. -/
lemma totals_nonneg_of_feasible {cs : List Constraint} {a : Assignment}
    (h : Feasible cs a) :
    0 ≤ total_charge a ∧ 0 ≤ total_regulation_down a ∧
    0 ≤ total_discharge a ∧ 0 ≤ total_regulation_up a := by
  refine ⟨?_, ?_, ?_, ?_⟩ <;>
  · refine List.sum_nonneg ?_
    intro x hx
    obtain ⟨hour, hh, rfl⟩ := List.mem_map.mp hx
    have hn := nonneg_of_feasible h (show hour ∈ hour_set from hh)
    tauto

set_option maxRecDepth 4000 in
/-- The all-zero-flow assignment with state of charge 100 satisfies the
day-1 model with initial charge 100 and no missing hours. -/
lemma flat_assignment_feasible :
    Feasible (add_constraints default_params 1 100 [] [] []) flat_assignment := by
  norm_num [Feasible, feasible_bool, vars_nonneg, add_constraints, hour_set_eq,
    default_params, flat_assignment, state_of_charge_constraint,
    initial_state_of_charge_constraint, initial_state_of_charge_day_1_constraint,
    state_of_charge_upper_bound_constraint, state_of_charge_lower_bound_constraint,
    recharge_upper_bound_constraint, recharge_lower_bound_constraint,
    discharge_upper_bound_constraint, discharge_lower_bound_constraint,
    charge_cycle_constraint, discharge_cycle_constraint]

set_option maxRecDepth 4000 in
/-- The all-zero-flow assignment with state of charge 100 also satisfies
the day-2 model with initial charge 100 and no missing hours. -/
lemma flat_assignment_feasible_day2 :
    Feasible (add_constraints default_params 2 100 [] [] []) flat_assignment := by
  norm_num [Feasible, feasible_bool, vars_nonneg, add_constraints, hour_set_eq,
    default_params, flat_assignment, state_of_charge_constraint,
    initial_state_of_charge_constraint, initial_state_of_charge_day_1_constraint,
    state_of_charge_upper_bound_constraint, state_of_charge_lower_bound_constraint,
    recharge_upper_bound_constraint, recharge_lower_bound_constraint,
    discharge_upper_bound_constraint, discharge_lower_bound_constraint,
    charge_cycle_constraint, discharge_cycle_constraint]

/-- C1 (code bug witness theorem): in the day-2 model built with the
run-level initial state of charge 100 — which is what
`OptimizationWorkflow.run_optimization` always passes as `initial_charge`
(src/main.py, lines 92..94) — every feasible assignment has soc[1] = 100,
and in particular soc[1] differs from a previous-day ending state of
charge of 50: `add_constraints` has no previous-day parameter at all, and
its day > 1 branch pins soc[1] to the same `initial_charge` expression as
the day-1 branch, contradicting the source's own comment at
src/model/optimization_model.py line 157. -/
theorem C1_day2_boundary_ignores_previous_day (a : Assignment)
    (h : Feasible (add_constraints default_params 2 100 [] [] []) a) :
    a (Var.state_of_charge 1) = 100 ∧ a (Var.state_of_charge 1) ≠ 50 := by
  have hb := soc_boundary_day_gt_1_of_feasible (by norm_num) h
  refine ⟨hb, ?_⟩
  rw [hb]
  norm_num

/-- Witness for C1: the concrete feasible day-2 assignment keeps
soc[1] = 100. -/
theorem C1_day2_boundary_ignores_previous_day_witness :
    flat_assignment (Var.state_of_charge 1) = 100 ∧
      flat_assignment (Var.state_of_charge 1) ≠ 50 :=
  C1_day2_boundary_ignores_previous_day flat_assignment
    flat_assignment_feasible_day2

/-- C2: for every month, day, data-handler state, run-level initial state
of charge, previous-day state value and solver outcome,
`BatteryStorageOptimization.run` ends in a TypeError: its call to
`add_constraints` passes 6 positional arguments against a 5-parameter
signature.  The result is `Except.error` independently of the solver
outcome, so no day model is ever solved through this call path. -/
theorem C2_run_raises_type_error (p : ModelParams) (month day : ℕ)
    (dh : DataHandlerState) (initial_state_of_charge previous_day_state : ℚ)
    (outcome : SolverOutcome) :
    BatteryStorageOptimization.run p month day dh initial_state_of_charge
      previous_day_state outcome = Except.error PyError.typeError := rfl

/-- C3 (amended): in every built day model, the state-of-charge recursion
constraint for every hour 2..24 is present and forces
soc[h] = soc[h-1] + eta*charge[h] - eta*discharge[h]
+ eta*lambda_reg*reg_up[h] + eta*lambda_reg*reg_down[h] with eta =
lambda_c: both regulation terms enter with a positive sign (the claim's
negative regulation-up sign does not match the source). -/
theorem C3_soc_recursion_signs (p : ModelParams) (day : ℕ) (init : ℚ)
    (me mru mrd : List (ℕ × ℕ × ℕ)) (hour : ℕ) (a : Assignment)
    (hh : hour ∈ hour_set) (h1 : 1 < hour)
    (h : Feasible (add_constraints p day init me mru mrd) a) :
    state_of_charge_constraint p hour ∈ add_constraints p day init me mru mrd ∧
    a (Var.state_of_charge hour) =
      a (Var.state_of_charge (hour - 1))
      + p.lambda_c * a (Var.quantity_charge hour)
      - p.lambda_c * a (Var.quantity_discharge hour)
      + p.lambda_c * p.lambda_reg * a (Var.quantity_regulation_up hour)
      + p.lambda_c * p.lambda_reg * a (Var.quantity_regulation_down hour) :=
  ⟨state_of_charge_constraint_mem p day init me mru mrd hh h1,
   state_of_charge_recursion_of_feasible hh h1 h⟩

/-- Witness for C3 at hour 2 of the concrete feasible day-1 model. -/
theorem C3_soc_recursion_signs_witness :
    state_of_charge_constraint default_params 2 ∈
      add_constraints default_params 1 100 [] [] [] ∧
    flat_assignment (Var.state_of_charge 2) =
      flat_assignment (Var.state_of_charge (2 - 1))
      + default_params.lambda_c * flat_assignment (Var.quantity_charge 2)
      - default_params.lambda_c * flat_assignment (Var.quantity_discharge 2)
      + default_params.lambda_c * default_params.lambda_reg *
        flat_assignment (Var.quantity_regulation_up 2)
      + default_params.lambda_c * default_params.lambda_reg *
        flat_assignment (Var.quantity_regulation_down 2) :=
  C3_soc_recursion_signs default_params 1 100 [] [] [] 2 flat_assignment
    (by decide) (by decide) flat_assignment_feasible

/-- Counterexample for C3 as stated: at the assignment with regulation up
1 and state of charge 9/100 at hour 2 (all else 0), the recursion
constraint the source adds at hour 2 is satisfied, while the claimed
variant with a negative regulation-up term is violated — so the added
constraint is not the claimed one. -/
theorem C3_counterexample :
    (state_of_charge_constraint default_params 2).check c3_assignment = true ∧
    state_of_charge_claimed_check default_params 2 c3_assignment = false := by
  constructor <;>
    norm_num [state_of_charge_constraint, state_of_charge_claimed_check,
      c3_assignment, default_params]

/-- C4 (amended): `set_objective_function` sets the model to maximize the
sum over hours 1..24 of discharge[h]*energy_price[h] -
charge[h]*energy_price[h] + reg_up[h]*reg_up_price[h] +
reg_down[h]*reg_down_price[h]: the capacity terms are absent and the
regulation-down revenue term is added, not subtracted. -/
theorem C4_objective_maximizes_with_reg_down_added (month day : ℕ)
    (ep up dp : ℕ × ℕ × ℕ → ℚ) (a : Assignment) :
    objective_sense = ObjSense.maximize ∧
    set_objective_function month day ep up dp a =
      (hour_set.map fun hour =>
        a (Var.quantity_discharge hour) * ep (month, hour, day)
        - a (Var.quantity_charge hour) * ep (month, hour, day)
        + a (Var.quantity_regulation_up hour) * up (month, hour, day)
        + a (Var.quantity_regulation_down hour) * dp (month, hour, day)).sum := by
  refine ⟨rfl, ?_⟩
  simp only [set_objective_function, List.sum_map_add, sum_map_sub]

/-- Counterexample for C4 as stated: with regulation down 1 at hour 1,
regulation-down price 5 and all other prices 0, the source objective
evaluates to 5 while the claimed objective (regulation-down revenue
subtracted) evaluates to -5. -/
theorem C4_counterexample :
    set_objective_function 1 1 c4_zero_price c4_zero_price c4_down_price
      c4_assignment = 5 ∧
    set_objective_function_claimed 1 1 c4_zero_price c4_zero_price
      c4_down_price c4_assignment = -5 := by
  constructor <;>
    norm_num [set_objective_function, set_objective_function_claimed,
      c4_zero_price, c4_down_price, c4_assignment, hour_set_eq]

/-- A list has no elements satisfying the constantly-false predicate. -/
lemma countP_const_false {α : Type} (l : List α) :
    l.countP (fun _ => false) = 0 :=
  List.countP_eq_zero.mpr (by intro x hx; simp)

/-- A mapped block contributes nothing to a count of constraints whose
kind its image never carries. -/
lemma countP_kind_map_eq_zero {α : Type} (l : List α) (f : α → Constraint)
    (k : CKind) (hf : ∀ x, (f x).kind ≠ k) :
    (l.map f).countP (fun c => decide (c.kind = k)) = 0 := by
  rw [List.countP_map]
  refine List.countP_eq_zero.mpr ?_
  intro x hx
  simp [Function.comp, hf x]

/-- A conditional singleton block contributes nothing to a count of
constraints of a kind its element does not carry. -/
lemma countP_kind_ite_single (b : Prop) [Decidable b] (c : Constraint)
    (k : CKind) (hc : c.kind ≠ k) :
    (if b then [c] else []).countP (fun c2 => decide (c2.kind = k)) = 0 := by
  by_cases hb : b <;> simp [hb, List.countP_singleton, hc]

/-- The recursion block contributes nothing to a count of constraints
whose kind the recursion constraints never carry. -/
lemma soc_recursion_block_countP (p : ModelParams) (pr : Constraint → Bool)
    (hpr : ∀ hour, pr (state_of_charge_constraint p hour) = false) :
    (hour_set.filterMap fun h2 =>
      if h2 > 1 then some (state_of_charge_constraint p h2) else none).countP
        pr = 0 := by
  refine List.countP_eq_zero.mpr ?_
  intro c hc
  obtain ⟨h2, _, hsome⟩ := List.mem_filterMap.mp hc
  by_cases hgt : h2 > 1
  · rw [if_pos hgt] at hsome
    cases hsome
    simp [hpr]
  · rw [if_neg hgt] at hsome
    cases hsome

set_option maxRecDepth 4000 in
/-- The C5 scenario maximizer is feasible for the C5 day model. -/
lemma c5_maximizer_feasible : Feasible c5_constraints c5_maximizer := by
  norm_num [c5_constraints, Feasible, feasible_bool, vars_nonneg,
    add_constraints, hour_set_eq, default_params, c5_maximizer,
    state_of_charge_constraint, initial_state_of_charge_constraint,
    initial_state_of_charge_day_1_constraint,
    state_of_charge_upper_bound_constraint,
    state_of_charge_lower_bound_constraint, recharge_upper_bound_constraint,
    recharge_lower_bound_constraint, discharge_upper_bound_constraint,
    discharge_lower_bound_constraint, charge_cycle_constraint,
    discharge_cycle_constraint]

set_option maxRecDepth 4000 in
/-- Objective value of the C5 maximizer: 100 discharged at hour 1 at price
10 yields 1000. -/
lemma c5_maximizer_value : c5_objective c5_maximizer = 1000 := by
  norm_num [c5_objective, set_objective_function, c5_energy_price,
    c5_regulation_price, c5_maximizer, hour_set_eq]

/-- The C5 objective collapses to 10 times the difference of the day
discharge and charge totals. -/
lemma c5_objective_eq (a : Assignment) :
    c5_objective a = (total_discharge a - total_charge a) * 10 := by
  simp only [c5_objective, set_objective_function, c5_energy_price,
    c5_regulation_price, List.sum_map_mul_right, total_discharge, total_charge,
    hour_set]
  ring

/-- No feasible point of the C5 day model has objective above 1000: the
discharge-side daily cycle cap bounds the discharge total by 100, charge
and regulation-up totals are nonnegative, and regulation prices are 0. -/
lemma c5_upper_bound {a : Assignment} (h : Feasible c5_constraints a) :
    c5_objective a ≤ 1000 := by
  have hf : Feasible (add_constraints default_params 1 100 [] [] []) a := h
  have hcap := discharge_cap_of_feasible hf
  have htot := totals_nonneg_of_feasible hf
  have hq : default_params.q_max_d = 100 := rfl
  rw [hq] at hcap
  rw [c5_objective_eq a]
  linarith [htot.1, htot.2.2.2]

set_option maxRecDepth 4000 in
/-- The all-zero-flow assignment with state of charge 100 satisfies the
day-1 model with one missing-energy hour 3, one missing-regulation-up
hour 4 and one missing-regulation-down hour 5. -/
lemma flat_assignment_feasible_missing :
    Feasible (add_constraints default_params 1 100 [(1, 3, 1)] [(1, 4, 1)]
      [(1, 5, 1)]) flat_assignment := by
  norm_num [Feasible, feasible_bool, vars_nonneg, add_constraints, hour_set_eq,
    default_params, flat_assignment, state_of_charge_constraint,
    initial_state_of_charge_constraint, initial_state_of_charge_day_1_constraint,
    state_of_charge_upper_bound_constraint, state_of_charge_lower_bound_constraint,
    recharge_upper_bound_constraint, recharge_lower_bound_constraint,
    discharge_upper_bound_constraint, discharge_lower_bound_constraint,
    missing_energy_constraint, missing_regulation_up_constraint,
    missing_regulation_down_constraint, charge_cycle_constraint,
    discharge_cycle_constraint]

/-- C5 (amended): for the single-day scenario (month 1, day 1, all energy
prices 10, regulation prices 0, q_max_d = q_max_r = 100, max_charge = 200,
initial state of charge 100, no missing hours, eta = 0.9) the optimal
objective value of the built LP is 1000, not 0: because the recursion
constraint starts at hour 2 and soc[1] is pinned, discharging 100 at hour
1 is feasible (soc stays constant at 100) and earns 1000, and no feasible
point can exceed 1000 by the discharge-side daily cycle cap. -/
theorem C5_optimal_objective_is_1000 :
    Feasible c5_constraints c5_maximizer ∧ c5_objective c5_maximizer = 1000 ∧
    is_optimal_value c5_constraints c5_objective 1000 :=
  ⟨c5_maximizer_feasible, c5_maximizer_value,
    ⟨⟨c5_maximizer, c5_maximizer_feasible, c5_maximizer_value⟩,
     fun _ ha => c5_upper_bound ha⟩⟩

/-- Counterexample for C5 as stated: 0 is not the optimal objective value
of the scenario LP, because the feasible maximizer with discharge 100 at
hour 1 attains 1000 > 0. -/
theorem C5_counterexample : ¬ is_optimal_value c5_constraints c5_objective 0 := by
  intro hopt
  have h1 := hopt.2 c5_maximizer c5_maximizer_feasible
  rw [c5_maximizer_value] at h1
  norm_num at h1

/-- C6 (amended): the cycle computation of
`OutputHandler.save_total_cycle_per_day` counts the day as one full cycle
exactly when total charge plus total regulation down equals q_max_r AND
total discharge plus total regulation up equals q_max_d — the plain
nameplate values, not their doubles — and otherwise counts 0; the
comparison against twice the nameplate values appears only in the test
helper `TestFunctions.number_of_cycles_check`. -/
theorem C6_cycle_rule (sol : Assignment) (q_max_d q_max_r : ℚ) :
    (save_total_cycle_per_day sol q_max_d q_max_r = 1 ↔
      (total_charge sol + total_regulation_down sol = q_max_r ∧
        total_discharge sol + total_regulation_up sol = q_max_d)) ∧
    (save_total_cycle_per_day sol q_max_d q_max_r = 0 ↔
      ¬(total_charge sol + total_regulation_down sol = q_max_r ∧
        total_discharge sol + total_regulation_up sol = q_max_d)) ∧
    (number_of_cycles_check sol q_max_d q_max_r = 1 ↔
      (total_charge sol + total_regulation_down sol = 2 * q_max_r ∧
        total_discharge sol + total_regulation_up sol = 2 * q_max_d)) := by
  refine ⟨?_, ?_, ?_⟩ <;>
    simp only [save_total_cycle_per_day, number_of_cycles_check] <;>
    by_cases h1 : total_charge sol + total_regulation_down sol = q_max_r <;>
    by_cases h2 : total_discharge sol + total_regulation_up sol = q_max_d <;>
    by_cases h3 : total_charge sol + total_regulation_down sol = 2 * q_max_r <;>
    by_cases h4 : total_discharge sol + total_regulation_up sol = 2 * q_max_d <;>
    simp [h1, h2, h3, h4]

/-- Counterexample for C6 as stated: for the day schedule with charge 100
and discharge 100 at hour 1 (all else 0) and nameplates
q_max_d = q_max_r = 100, the source cycle computation reports 1 while the
claimed rule (equality against twice the nameplates) reports 0. -/
theorem C6_counterexample :
    save_total_cycle_per_day c6_solution 100 100 = 1 ∧
    save_total_cycle_per_day_claimed c6_solution 100 100 = 0 := by
  constructor <;>
    norm_num [save_total_cycle_per_day, save_total_cycle_per_day_claimed,
      total_charge, total_regulation_down, total_discharge,
      total_regulation_up, c6_solution, range_list_eq]

/-- C7: every built day model contains exactly one daily cycle-cap
constraint per side; any feasible assignment satisfies
total charge + total regulation down <= q_max_r and
total discharge + total regulation up <= q_max_d; and the derived daily
cycle count of the output handler is always 0 or 1. -/
theorem C7_daily_cycle_caps (p : ModelParams) (day : ℕ) (init : ℚ)
    (me mru mrd : List (ℕ × ℕ × ℕ)) :
    ((add_constraints p day init me mru mrd).countP
        (fun c => decide (c.kind = CKind.charge_cycle_constraint)) = 1) ∧
    ((add_constraints p day init me mru mrd).countP
        (fun c => decide (c.kind = CKind.discharge_cycle_constraint)) = 1) ∧
    (∀ a, Feasible (add_constraints p day init me mru mrd) a →
      total_charge a + total_regulation_down a ≤ p.q_max_r ∧
      total_discharge a + total_regulation_up a ≤ p.q_max_d) ∧
    (∀ sol q_max_d q_max_r,
      save_total_cycle_per_day sol q_max_d q_max_r = 0 ∨
      save_total_cycle_per_day sol q_max_d q_max_r = 1) := by
  refine ⟨?_, ?_,
    fun a ha => ⟨charge_cap_of_feasible ha, discharge_cap_of_feasible ha⟩, ?_⟩
  · simp only [add_constraints, List.countP_append]
    rw [soc_recursion_block_countP p _ (by
        intro hour
        simp [state_of_charge_constraint]),
      countP_kind_ite_single (day > 1) (initial_state_of_charge_constraint init)
        CKind.charge_cycle_constraint (by simp [initial_state_of_charge_constraint]),
      countP_kind_ite_single (day = 1)
        (initial_state_of_charge_day_1_constraint init)
        CKind.charge_cycle_constraint
        (by simp [initial_state_of_charge_day_1_constraint]),
      countP_kind_map_eq_zero hour_set
        (fun hour => state_of_charge_upper_bound_constraint p hour)
        CKind.charge_cycle_constraint
        (by intro x; simp [state_of_charge_upper_bound_constraint]),
      countP_kind_map_eq_zero hour_set
        (fun hour => state_of_charge_lower_bound_constraint hour)
        CKind.charge_cycle_constraint
        (by intro x; simp [state_of_charge_lower_bound_constraint]),
      countP_kind_map_eq_zero hour_set
        (fun hour => recharge_upper_bound_constraint p hour)
        CKind.charge_cycle_constraint
        (by intro x; simp [recharge_upper_bound_constraint]),
      countP_kind_map_eq_zero hour_set
        (fun hour => recharge_lower_bound_constraint hour)
        CKind.charge_cycle_constraint
        (by intro x; simp [recharge_lower_bound_constraint]),
      countP_kind_map_eq_zero hour_set
        (fun hour => discharge_upper_bound_constraint p hour)
        CKind.charge_cycle_constraint
        (by intro x; simp [discharge_upper_bound_constraint]),
      countP_kind_map_eq_zero hour_set
        (fun hour => discharge_lower_bound_constraint hour)
        CKind.charge_cycle_constraint
        (by intro x; simp [discharge_lower_bound_constraint]),
      countP_kind_map_eq_zero me
        (fun t => missing_energy_constraint t.2.1)
        CKind.charge_cycle_constraint
        (by intro x; simp [missing_energy_constraint]),
      countP_kind_map_eq_zero mru
        (fun t => missing_regulation_up_constraint t.2.1)
        CKind.charge_cycle_constraint
        (by intro x; simp [missing_regulation_up_constraint]),
      countP_kind_map_eq_zero mrd
        (fun t => missing_regulation_down_constraint t.2.1)
        CKind.charge_cycle_constraint
        (by intro x; simp [missing_regulation_down_constraint]),
      List.countP_singleton, List.countP_singleton]
    simp [charge_cycle_constraint, discharge_cycle_constraint]
  · simp only [add_constraints, List.countP_append]
    rw [soc_recursion_block_countP p _ (by
        intro hour
        simp [state_of_charge_constraint]),
      countP_kind_ite_single (day > 1) (initial_state_of_charge_constraint init)
        CKind.discharge_cycle_constraint
        (by simp [initial_state_of_charge_constraint]),
      countP_kind_ite_single (day = 1)
        (initial_state_of_charge_day_1_constraint init)
        CKind.discharge_cycle_constraint
        (by simp [initial_state_of_charge_day_1_constraint]),
      countP_kind_map_eq_zero hour_set
        (fun hour => state_of_charge_upper_bound_constraint p hour)
        CKind.discharge_cycle_constraint
        (by intro x; simp [state_of_charge_upper_bound_constraint]),
      countP_kind_map_eq_zero hour_set
        (fun hour => state_of_charge_lower_bound_constraint hour)
        CKind.discharge_cycle_constraint
        (by intro x; simp [state_of_charge_lower_bound_constraint]),
      countP_kind_map_eq_zero hour_set
        (fun hour => recharge_upper_bound_constraint p hour)
        CKind.discharge_cycle_constraint
        (by intro x; simp [recharge_upper_bound_constraint]),
      countP_kind_map_eq_zero hour_set
        (fun hour => recharge_lower_bound_constraint hour)
        CKind.discharge_cycle_constraint
        (by intro x; simp [recharge_lower_bound_constraint]),
      countP_kind_map_eq_zero hour_set
        (fun hour => discharge_upper_bound_constraint p hour)
        CKind.discharge_cycle_constraint
        (by intro x; simp [discharge_upper_bound_constraint]),
      countP_kind_map_eq_zero hour_set
        (fun hour => discharge_lower_bound_constraint hour)
        CKind.discharge_cycle_constraint
        (by intro x; simp [discharge_lower_bound_constraint]),
      countP_kind_map_eq_zero me
        (fun t => missing_energy_constraint t.2.1)
        CKind.discharge_cycle_constraint
        (by intro x; simp [missing_energy_constraint]),
      countP_kind_map_eq_zero mru
        (fun t => missing_regulation_up_constraint t.2.1)
        CKind.discharge_cycle_constraint
        (by intro x; simp [missing_regulation_up_constraint]),
      countP_kind_map_eq_zero mrd
        (fun t => missing_regulation_down_constraint t.2.1)
        CKind.discharge_cycle_constraint
        (by intro x; simp [missing_regulation_down_constraint]),
      List.countP_singleton, List.countP_singleton]
    simp [charge_cycle_constraint, discharge_cycle_constraint]
  · intro sol q_max_d q_max_r
    simp only [save_total_cycle_per_day]
    split
    · right
      rfl
    · left
      rfl

/-- Witness for C7: the concrete feasible day-1 assignment respects both
daily cycle caps. -/
theorem C7_daily_cycle_caps_witness :
    total_charge flat_assignment + total_regulation_down flat_assignment ≤
      default_params.q_max_r ∧
    total_discharge flat_assignment + total_regulation_up flat_assignment ≤
      default_params.q_max_d :=
  (C7_daily_cycle_caps default_params 1 100 [] [] []).2.2.1 flat_assignment
    flat_assignment_feasible

/-- C8: for every triple of the three missing lists, the corresponding
zeroing constraint is in the built model, and any feasible assignment has
charge and discharge zero at every missing-energy hour (using the
variable lower bounds), regulation up zero at every
missing-regulation-up hour and regulation down zero at every
missing-regulation-down hour.  The membership hypothesis of the listed
hour in 1..24 for the energy case reflects both the variable-dict domain
of the source and the lower bounds needed to split the sum. -/
theorem C8_missing_data_zeroing (p : ModelParams) (day : ℕ) (init : ℚ)
    (me mru mrd : List (ℕ × ℕ × ℕ)) :
    (∀ t ∈ me,
      missing_energy_constraint t.2.1 ∈ add_constraints p day init me mru mrd) ∧
    (∀ t ∈ mru,
      missing_regulation_up_constraint t.2.1 ∈
        add_constraints p day init me mru mrd) ∧
    (∀ t ∈ mrd,
      missing_regulation_down_constraint t.2.1 ∈
        add_constraints p day init me mru mrd) ∧
    (∀ a, Feasible (add_constraints p day init me mru mrd) a →
      (∀ t ∈ me, t.2.1 ∈ hour_set →
        a (Var.quantity_charge t.2.1) = 0 ∧
        a (Var.quantity_discharge t.2.1) = 0) ∧
      (∀ t ∈ mru, a (Var.quantity_regulation_up t.2.1) = 0) ∧
      (∀ t ∈ mrd, a (Var.quantity_regulation_down t.2.1) = 0)) :=
  ⟨fun _ ht => missing_energy_constraint_mem p day init me mru mrd ht,
   fun _ ht => missing_regulation_up_constraint_mem p day init me mru mrd ht,
   fun _ ht => missing_regulation_down_constraint_mem p day init me mru mrd ht,
   fun _ ha =>
     ⟨fun _ ht hh => missing_energy_zero_of_feasible ht hh ha,
      fun _ ht => missing_regulation_up_zero_of_feasible ht ha,
      fun _ ht => missing_regulation_down_zero_of_feasible ht ha⟩⟩

/-- Witness for C8 with one missing triple per list: hours 3, 4 and 5 are
zeroed in the concrete feasible assignment. -/
theorem C8_missing_data_zeroing_witness :
    flat_assignment (Var.quantity_charge 3) = 0 ∧
    flat_assignment (Var.quantity_discharge 3) = 0 ∧
    flat_assignment (Var.quantity_regulation_up 4) = 0 ∧
    flat_assignment (Var.quantity_regulation_down 5) = 0 := by
  have h := (C8_missing_data_zeroing default_params 1 100 [(1, 3, 1)]
    [(1, 4, 1)] [(1, 5, 1)]).2.2.2 flat_assignment
    flat_assignment_feasible_missing
  exact ⟨(h.1 (1, 3, 1) (by decide) (by decide)).1,
    (h.1 (1, 3, 1) (by decide) (by decide)).2,
    h.2.1 (1, 4, 1) (by decide), h.2.2 (1, 5, 1) (by decide)⟩

/-- C9: for every input price dict, `fill_missing_hour` returns a filled
dict containing every (month, hour, day) key of the cross product of
occurring months, hours 1..24 and occurring days, agreeing with the input
on every input key, together with a missing dict holding exactly the
cross-product keys absent from the input, each mapped to 0. -/
theorem C9_fill_missing_hour_complete (d : PriceMap) :
    (∀ m ∈ d.keys.image (fun key => key.1),
      ∀ dd ∈ d.keys.image (fun key => key.2.2),
        ∀ h2 ∈ Finset.Icc (1 : ℕ) 24,
          (m, h2, dd) ∈ (fill_missing_hour d).1.keys) ∧
    (∀ key ∈ d.keys, (fill_missing_hour d).1.val key = d.val key) ∧
    (∀ key : ℕ × ℕ × ℕ, key ∈ (fill_missing_hour d).2.keys ↔
      (key.1 ∈ d.keys.image (fun k2 => k2.1) ∧
        key.2.1 ∈ Finset.Icc (1 : ℕ) 24 ∧
        key.2.2 ∈ d.keys.image (fun k2 => k2.2.2) ∧ key ∉ d.keys)) ∧
    (∀ key ∈ (fill_missing_hour d).2.keys,
      (fill_missing_hour d).2.val key = 0) := by
  refine ⟨?_, ?_, ?_, ?_⟩
  · intro m hm dd hdd h2 hh2
    by_cases hk : (m, h2, dd) ∈ d.keys <;>
      simp [fill_missing_hour, Finset.mem_product, hk, hm, hdd, hh2]
  · intro key hk
    simp [fill_missing_hour, hk]
  · intro key
    simp only [fill_missing_hour, Finset.mem_filter, Finset.mem_product]
    tauto
  · intro key _
    rfl

/-- Witness for C9 on the one-key dict with key (1, 1, 1) and value 7:
hour 5 of month 1, day 1 is filled, the input key keeps value 7, and
(1, 5, 1) is recorded as missing. -/
theorem C9_fill_missing_hour_complete_witness :
    ((1 : ℕ), (5 : ℕ), (1 : ℕ)) ∈ (fill_missing_hour c9_input).1.keys ∧
    (fill_missing_hour c9_input).1.val (1, 1, 1) = 7 ∧
    ((1 : ℕ), (5 : ℕ), (1 : ℕ)) ∈ (fill_missing_hour c9_input).2.keys :=
  ⟨(C9_fill_missing_hour_complete c9_input).1 1 (by decide) 1 (by decide) 5
      (by decide),
   (C9_fill_missing_hour_complete c9_input).2.1 (1, 1, 1) (by decide),
   ((C9_fill_missing_hour_complete c9_input).2.2.1 (1, 5, 1)).mpr
      ⟨by decide, by decide, by decide, by decide⟩⟩

/-- C10 (amended): `OptimizationModel.solve` never raises — it
unconditionally returns the 4-tuple (model handle, result of docplex
solve, q_max_d, q_max_r), where the docplex result is empty both on
infeasibility and on solver failure; and the hand-crafted day with
initial state of charge 300 above max_charge 200 does make the built LP
infeasible (no assignment is feasible). -/
theorem C10_solve_never_raises :
    (∀ (outcome : SolverOutcome) (q_max_d q_max_r : ℚ),
      OptimizationModel.solve outcome q_max_d q_max_r =
        Except.ok ((), docplex_solve outcome, q_max_d, q_max_r)) ∧
    (∀ a : Assignment, feasible_bool c10_constraints a = false) := by
  refine ⟨fun outcome q_max_d q_max_r => rfl, fun a => ?_⟩
  cases hb : feasible_bool c10_constraints a with
  | false => rfl
  | true =>
    exfalso
    have hf : Feasible (add_constraints default_params 1 300 [] [] []) a := hb
    have h1 := soc_boundary_day1_of_feasible rfl hf
    have h2 := soc_upper_of_feasible (show (1 : ℕ) ∈ hour_set by decide) hf
    rw [h1] at h2
    have hm : default_params.max_charge = 200 := rfl
    rw [hm] at h2
    norm_num at h2

/-- Counterexample for C10 as stated: on an infeasible day the source
`solve` does not raise an InfeasibleError — it returns the plain 4-tuple
whose solution slot is empty (no exception class named InfeasibleError or
SolverError exists anywhere in the source tree). -/
theorem C10_counterexample :
    OptimizationModel.solve SolverOutcome.infeasible 100 100 =
      Except.ok ((), none, 100, 100) := rfl

end BESS
